import Mathlib

/-!
# Verification of `src/Anomaly_Detection.py`

Shallow embedding of the anomaly-detection script and proofs about it.

Modelling conventions:

* Python floats are modelled as exact rationals (`ℚ`); the script's arithmetic
  (window statistics, z-score comparison, the generator's value formula) is
  embedded over `ℚ`, with the single irrational quantity — the standard
  deviation `np.std(...) = sqrt(variance)` — represented by its square
  (field `std_sq`), so that every state component stays rational and
  executable.  The bridging lemmas `std_zero_iff_sqrt` and `abs_zscore_gt_iff`
  show that the decidable tests used by `detect` coincide exactly with the
  source's tests `self.std == 0` and `abs(zscore) > self.threshold` read over
  the reals with `std = Real.sqrt std_sq`.
* External collaborators (`np.sin`, `random.gauss`, the spike coin-flip) are
  injected as function parameters, so the stream generator is deterministic
  given those sources.
* Python's `raise ValueError(msg)` is modelled as `Except.error msg`.
* `round(value, 2)` rounds half-to-even to two decimal places.
-/

namespace AnomalyDetection

/-- Round a rational to the nearest integer, ties to even, as Python's
built-in `round` does on exact values. -/
def round_half_even (q : ℚ) : ℤ :=
  let f := ⌊q⌋
  let r := q - f
  if r < 1 / 2 then f
  else if 1 / 2 < r then f + 1
  else if f % 2 = 0 then f else f + 1

/-- `round(x, 2)` from the data-stream generator: round to 2 decimal places. -/
def round2 (x : ℚ) : ℚ := (round_half_even (x * 100) : ℚ) / 100

/-- `np.mean(xs)`: sum divided by length (population mean). -/
def npMean (xs : List ℚ) : ℚ := xs.sum / xs.length

/-- The square of `np.std(xs)`: the population variance, mean of squared
deviations from the mean.  `np.std xs` itself is `Real.sqrt (npVar xs)`. -/
def npVar (xs : List ℚ) : ℚ := (xs.map (fun v => (v - npMean xs) ^ 2)).sum / xs.length

/-- Appending to a `collections.deque` whose `maxlen` is `maxlen`: the deque
retains the last `maxlen` elements, silently discarding the oldest. -/
def dequeAppend (maxlen : ℕ) (xs : List ℚ) (x : ℚ) : List ℚ :=
  (xs ++ [x]).drop ((xs ++ [x]).length - maxlen)

/-- State of a `ZScoreAnomalyDetector`.  The Python attribute `std` always
holds a value of the form `sqrt v`; we store the radicand in `std_sq`, so
`self.std = Real.sqrt std_sq` (see `std_zero_iff_sqrt`, `abs_zscore_gt_iff`). -/
structure ZScoreAnomalyDetector where
  window_size : ℕ
  threshold : ℚ
  data_window : List ℚ
  mean : ℚ
  std_sq : ℚ

/-- The detector state built by `__init__` once validation has passed:
empty window, `mean = 0`, `std = 0`. -/
def detectorInit (window_size : ℕ) (threshold : ℚ) : ZScoreAnomalyDetector :=
  ⟨window_size, threshold, [], 0, 0⟩

/-- `ZScoreAnomalyDetector.__init__` with its validation.  `window_size` is
typed `ℤ` (Python's `isinstance(window_size, int)` check is the type
ascription; non-integer inputs are not representable here), and the
`ValueError`s become `Except.error` with the source's messages. -/
def ZScoreAnomalyDetector.create (window_size : ℤ) (threshold : ℚ) :
    Except String ZScoreAnomalyDetector :=
  if window_size ≤ 0 then Except.error "window_size must be a Positive Integer"
  else if threshold ≤ 0 then Except.error "threshold must be a Positive Number"
  else Except.ok (detectorInit window_size.toNat threshold)

/-- `self.data_window.append(new_value)` (deque with bounded `maxlen`). -/
def ZScoreAnomalyDetector.push (d : ZScoreAnomalyDetector) (new_value : ℚ) :
    ZScoreAnomalyDetector :=
  { d with data_window := dequeAppend d.window_size d.data_window new_value }

/-- `update_statistics`: recompute mean and std from the window, but only when
the window holds more than one sample. -/
def ZScoreAnomalyDetector.update_statistics (d : ZScoreAnomalyDetector) :
    ZScoreAnomalyDetector :=
  if 1 < d.data_window.length then
    { d with mean := npMean d.data_window, std_sq := npVar d.data_window }
  else d

/-- `detect(new_value)`: append to the window, update statistics, return
`False` when `std == 0`, otherwise flag iff `abs((new_value - mean)/std)`
exceeds the threshold.  With `std = Real.sqrt std_sq`:
`std == 0` is exactly `std_sq ≤ 0` (`Real.sqrt_eq_zero'`), and for
`std_sq > 0` the flag condition is exactly
`threshold < 0 ∨ threshold ^ 2 * std_sq < (new_value - mean) ^ 2`
(`abs_zscore_gt_iff`).  Returns the updated state and the boolean. -/
def ZScoreAnomalyDetector.detect (d : ZScoreAnomalyDetector) (new_value : ℚ) :
    ZScoreAnomalyDetector × Bool :=
  let d1 := (d.push new_value).update_statistics
  if d1.std_sq ≤ 0 then (d1, false)
  else (d1, decide (d1.threshold < 0 ∨ d1.threshold ^ 2 * d1.std_sq < (new_value - d1.mean) ^ 2))

/-- Run the detector over a list of samples, collecting the final state and
the classification of each sample in order. -/
def runDetect (d : ZScoreAnomalyDetector) : List ℚ → ZScoreAnomalyDetector × List Bool
  | [] => (d, [])
  | x :: xs =>
    let r := d.detect x
    let rest := runDetect r.1 xs
    (rest.1, r.2 :: rest.2)

/-- The value produced by `data_stream_generator` at index `i`, with the
external collaborators injected: `sinf` for `np.sin`, `noise i` for
`random.gauss(0, 1)` at index `i`, and `spike i = some s` when the
probability-0.01 branch fires at index `i` and draws `s` from
`random.gauss(50, 10)`. -/
def stream_value (sinf : ℚ → ℚ) (noise : ℕ → ℚ) (spike : ℕ → Option ℚ) (i : ℕ) : ℚ :=
  let season := sinf ((i : ℚ) * (5 / 100)) * 10
  let trend := (i : ℚ) * (1 / 100)
  let value := season + trend + noise i
  let value2 :=
    match spike i with
    | some s => value + s
    | none => value
  round2 value2

/-- `data_stream_generator(num_points)`: validates that `num_points` is a
positive integer before producing anything, then yields the `num_points`
values in index order. -/
def data_stream_generator (sinf : ℚ → ℚ) (noise : ℕ → ℚ) (spike : ℕ → Option ℚ)
    (num_points : ℤ) : Except String (List ℚ) :=
  if num_points ≤ 0 then Except.error "num_points must be a positive integer"
  else Except.ok ((List.range num_points.toNat).map (stream_value sinf noise spike))

/-- The console line printed for a detected anomaly at index `i` with value
`point`: the argument of `print(f"--> Anomaly detected at X-axis {i} & Y-axis {point}\n")`. -/
def anomaly_log_line (i : ℕ) (point : ℚ) : String :=
  "--> Anomaly detected at X-axis " ++ toString i ++ " & Y-axis " ++ toString point ++ "\n"

/-- The log-line format asserted by the specification (for comparison with
`anomaly_log_line`, which is what the source actually prints). -/
def spec_log_line (i : ℕ) (point : ℚ) : String :=
  "Anomaly detected at X-axis " ++ toString i ++ " & Y-axis " ++ toString point

/-- The console output of `real_time_visualization`, starting at sample index
`i`: one `anomaly_log_line` per sample classified anomalous, in order. -/
def real_time_visualization :
    ZScoreAnomalyDetector → ℕ → List ℚ → List String
  | _, _, [] => []
  | d, i, point :: rest =>
    let r := d.detect point
    (if r.2 then [anomaly_log_line i point] else []) ++
      real_time_visualization r.1 (i + 1) rest

/-- The classification trace of the visualization loop: for each sample, its
0-based index, its value, and whether `detect` flagged it. -/
def detect_trace :
    ZScoreAnomalyDetector → ℕ → List ℚ → List (ℕ × ℚ × Bool)
  | _, _, [] => []
  | d, i, point :: rest =>
    let r := d.detect point
    (i, point, r.2) :: detect_trace r.1 (i + 1) rest

/-! ## Faithfulness of the `std_sq` representation -/

/-- The test `self.std == 0` of the source, with `std = Real.sqrt std_sq`,
is exactly the test `std_sq ≤ 0` used by `detect`. -/
lemma std_zero_iff_sqrt (s : ℚ) : Real.sqrt (s : ℝ) = 0 ↔ s ≤ 0 := by
  rw [Real.sqrt_eq_zero']
  exact_mod_cast Iff.rfl

/-- For a positive radicand, the source's flag condition
`abs((x - m) / std) > t` with `std = Real.sqrt s` is exactly the decidable
condition used by `detect`. -/
lemma abs_zscore_gt_iff (x m t s : ℚ) (hs : 0 < s) :
    (t < 0 ∨ t ^ 2 * s < (x - m) ^ 2) ↔
      (t : ℝ) < |((x : ℝ) - (m : ℝ)) / Real.sqrt (s : ℝ)| := by
  have hsR : (0 : ℝ) < (s : ℝ) := by exact_mod_cast hs
  have hS : (0 : ℝ) < Real.sqrt (s : ℝ) := Real.sqrt_pos.mpr hsR
  have hS2 : Real.sqrt (s : ℝ) ^ 2 = (s : ℝ) := Real.sq_sqrt hsR.le
  rw [abs_div, abs_of_pos hS, lt_div_iff₀ hS]
  constructor
  · rintro (ht | h)
    · have htR : (t : ℝ) < 0 := by exact_mod_cast ht
      have : (t : ℝ) * Real.sqrt (s : ℝ) < 0 := mul_neg_of_neg_of_pos htR hS
      exact lt_of_lt_of_le this (abs_nonneg _)
    · have hR : (t : ℝ) ^ 2 * (s : ℝ) < ((x : ℝ) - (m : ℝ)) ^ 2 := by exact_mod_cast h
      nlinarith [abs_nonneg ((x : ℝ) - (m : ℝ)), sq_abs ((x : ℝ) - (m : ℝ)),
        abs_nonneg ((t : ℝ) * Real.sqrt (s : ℝ)), sq_abs ((t : ℝ) * Real.sqrt (s : ℝ)),
        le_abs_self ((t : ℝ) * Real.sqrt (s : ℝ))]
  · intro h
    by_cases ht : t < 0
    · exact Or.inl ht
    · right
      have htR : (0 : ℝ) ≤ (t : ℝ) := by exact_mod_cast not_lt.mp ht
      have h2 : ((t : ℝ) * Real.sqrt (s : ℝ)) ^ 2 < |((x : ℝ) - (m : ℝ))| ^ 2 := by
        have h0 : (0 : ℝ) ≤ (t : ℝ) * Real.sqrt (s : ℝ) := mul_nonneg htR hS.le
        nlinarith [abs_nonneg ((x : ℝ) - (m : ℝ))]
      have h3 : (t : ℝ) ^ 2 * (s : ℝ) < ((x : ℝ) - (m : ℝ)) ^ 2 := by
        calc (t : ℝ) ^ 2 * (s : ℝ) = ((t : ℝ) * Real.sqrt (s : ℝ)) ^ 2 := by
              rw [mul_pow, hS2]
          _ < |((x : ℝ) - (m : ℝ))| ^ 2 := h2
          _ = ((x : ℝ) - (m : ℝ)) ^ 2 := sq_abs _
      exact_mod_cast h3

/-- The population variance is never negative, so `std_sq` is nonnegative on
every reachable state. -/
lemma npVar_nonneg (xs : List ℚ) : 0 ≤ npVar xs := by
  unfold npVar
  apply div_nonneg
  · apply List.sum_nonneg
    intro x hx
    obtain ⟨v, _, rfl⟩ := List.mem_map.mp hx
    positivity
  · positivity

/-! ## Structural lemmas about `detect` and `runDetect` -/

lemma detect_fst (d : ZScoreAnomalyDetector) (x : ℚ) :
    (d.detect x).1 = (d.push x).update_statistics := by
  unfold ZScoreAnomalyDetector.detect
  dsimp only
  split <;> rfl

lemma update_statistics_window (d : ZScoreAnomalyDetector) :
    d.update_statistics.data_window = d.data_window := by
  unfold ZScoreAnomalyDetector.update_statistics
  split <;> rfl

lemma update_statistics_window_size (d : ZScoreAnomalyDetector) :
    d.update_statistics.window_size = d.window_size := by
  unfold ZScoreAnomalyDetector.update_statistics
  split <;> rfl

lemma update_statistics_threshold (d : ZScoreAnomalyDetector) :
    d.update_statistics.threshold = d.threshold := by
  unfold ZScoreAnomalyDetector.update_statistics
  split <;> rfl

lemma detect_fst_window (d : ZScoreAnomalyDetector) (x : ℚ) :
    (d.detect x).1.data_window = dequeAppend d.window_size d.data_window x := by
  rw [detect_fst, update_statistics_window]
  rfl

lemma detect_fst_window_size (d : ZScoreAnomalyDetector) (x : ℚ) :
    (d.detect x).1.window_size = d.window_size := by
  rw [detect_fst, update_statistics_window_size]
  rfl

lemma detect_fst_threshold (d : ZScoreAnomalyDetector) (x : ℚ) :
    (d.detect x).1.threshold = d.threshold := by
  rw [detect_fst, update_statistics_threshold]
  rfl

/-- Appending to a deque that already holds the last `W` values of `acc`
yields the last `W` values of `acc ++ [x]`. -/
lemma dequeAppend_drop (W : ℕ) (acc : List ℚ) (x : ℚ) :
    dequeAppend W (acc.drop (acc.length - W)) x
      = (acc ++ [x]).drop ((acc ++ [x]).length - W) := by
  unfold dequeAppend
  rcases le_or_lt acc.length W with h | h
  · have h0 : acc.length - W = 0 := Nat.sub_eq_zero_of_le h
    rw [h0, List.drop_zero]
  · have hlen : (acc.drop (acc.length - W)).length = W := by
      rw [List.length_drop]
      omega
    have hW1 : (acc.drop (acc.length - W) ++ [x]).length - W = 1 := by
      simp only [List.length_append, List.length_cons, List.length_nil, hlen]
      omega
    rw [hW1]
    rcases Nat.eq_zero_or_pos W with hW0 | hWpos
    · subst hW0
      simp
    · have h1le : 1 ≤ (acc.drop (acc.length - W)).length := by omega
      rw [List.drop_append_of_le_length h1le, List.drop_drop]
      have h2 : (acc ++ [x]).length - W = (acc.length - W) + 1 := by
        simp only [List.length_append, List.length_cons, List.length_nil]
        omega
      rw [h2, List.drop_append_of_le_length (by omega)]

/-- The window of the state reached by `runDetect` holds exactly the most
recent `window_size` samples of everything observed so far. -/
lemma runDetect_fst_window (W : ℕ) :
    ∀ (xs : List ℚ) (d : ZScoreAnomalyDetector) (acc : List ℚ),
      d.window_size = W → d.data_window = acc.drop (acc.length - W) →
      (runDetect d xs).1.window_size = W ∧
      (runDetect d xs).1.data_window = (acc ++ xs).drop ((acc ++ xs).length - W)
  | [], d, acc, hw, hd => by
      simp only [runDetect, List.append_nil]
      exact ⟨hw, hd⟩
  | x :: xs, d, acc, hw, hd => by
      simp only [runDetect]
      have hwin : (d.detect x).1.data_window
          = (acc ++ [x]).drop ((acc ++ [x]).length - W) := by
        rw [detect_fst_window, hw, hd, dequeAppend_drop]
      have hws : (d.detect x).1.window_size = W := by
        rw [detect_fst_window_size, hw]
      have ih := runDetect_fst_window W xs (d.detect x).1 (acc ++ [x]) hws hwin
      simpa [List.append_assoc] using ih

/-! ## Claim C1 -/

/-- Claim C1: for every detector constructed with window size `W` and every
sequence of `detect` calls, the internal sliding window afterwards holds
exactly the last `min (number of calls) W` observed values, oldest first
(FIFO eviction of the oldest element once `W` is exceeded); in particular it
is always the length-`min _ W` suffix of the full input sequence, so it
always contains the value just appended. -/
theorem window_fifo_bound (W : ℕ) (t : ℚ) (xs : List ℚ) (hW : 0 < W) :
    (runDetect (detectorInit W t) xs).1.data_window = xs.drop (xs.length - W) ∧
    (runDetect (detectorInit W t) xs).1.data_window.length = min xs.length W := by
  have h := runDetect_fst_window W xs (detectorInit W t) [] rfl (by simp [detectorInit])
  have h1 : (runDetect (detectorInit W t) xs).1.data_window
      = xs.drop (xs.length - W) := by simpa using h.2
  refine ⟨h1, ?_⟩
  rw [h1, List.length_drop]
  omega

/-- Witness for C1 at `W = 2`, inputs `[1, 2, 3]`: the window is `[2, 3]`,
of length `min 3 2 = 2`. -/
theorem window_fifo_bound_witness :
    (runDetect (detectorInit 2 3) [1, 2, 3]).1.data_window = [2, 3] ∧
    (runDetect (detectorInit 2 3) [1, 2, 3]).1.data_window.length = 2 := by
  have h := window_fifo_bound 2 3 [1, 2, 3] (by norm_num)
  exact ⟨h.1.trans (by rfl), h.2.trans (by rfl)⟩

/-! ## Claim C4 -/

/-- Claim C4: on a freshly constructed detector (any valid window size and
threshold), the very first `detect` call returns `false` for every value:
the window then has length 1, the statistics are left at `mean = 0`,
`std = 0`, and the `std == 0` branch yields `false`. -/
theorem first_call_false (W : ℕ) (t v : ℚ) (hW : 0 < W) :
    ((detectorInit W t).detect v).2 = false ∧
    ((detectorInit W t).detect v).1.data_window = [v] ∧
    ((detectorInit W t).detect v).1.mean = 0 ∧
    ((detectorInit W t).detect v).1.std_sq = 0 := by
  have h0 : 1 - W = 0 := by omega
  have hwin : dequeAppend W [] v = [v] := by
    unfold dequeAppend
    simp [h0]
  unfold ZScoreAnomalyDetector.detect ZScoreAnomalyDetector.push
    ZScoreAnomalyDetector.update_statistics detectorInit
  simp [hwin]

/-- Witness for C4 at `W = 7`, `t = 3`, `v = 42`. -/
theorem first_call_false_witness :
    ((detectorInit 7 3).detect 42).2 = false ∧
    ((detectorInit 7 3).detect 42).1.data_window = [42] ∧
    ((detectorInit 7 3).detect 42).1.mean = 0 ∧
    ((detectorInit 7 3).detect 42).1.std_sq = 0 :=
  first_call_false 7 3 42 (by norm_num)

/-! ## Lemmas for uniform windows -/

lemma detect_snd_eq_false (d : ZScoreAnomalyDetector) (x : ℚ)
    (h : ((d.push x).update_statistics).std_sq ≤ 0) : (d.detect x).2 = false := by
  unfold ZScoreAnomalyDetector.detect
  dsimp only
  rw [if_pos h]

lemma update_statistics_std_sq (d : ZScoreAnomalyDetector) :
    d.update_statistics.std_sq
      = if 1 < d.data_window.length then npVar d.data_window else d.std_sq := by
  by_cases h : 1 < d.data_window.length <;>
    simp [ZScoreAnomalyDetector.update_statistics, h]

lemma dequeAppend_replicate (W k : ℕ) (v : ℚ) :
    dequeAppend W (List.replicate k v) v = List.replicate (min (k + 1) W) v := by
  unfold dequeAppend
  rw [← List.replicate_succ', List.length_replicate, List.drop_replicate]
  congr 1
  omega

/-- The population variance of a constant window is zero. -/
lemma npVar_replicate (m : ℕ) (v : ℚ) : npVar (List.replicate m v) = 0 := by
  rcases Nat.eq_zero_or_pos m with h | h
  · subst h
    simp [npVar]
  · have hm : (m : ℚ) ≠ 0 := Nat.cast_ne_zero.mpr h.ne'
    have hmean : npMean (List.replicate m v) = v := by
      unfold npMean
      rw [List.sum_replicate, List.length_replicate, nsmul_eq_mul]
      field_simp
    unfold npVar
    rw [hmean]
    simp

/-- One `detect` step on a detector whose window is uniform with the incoming
value: the window stays uniform, `std` stays 0, and the call returns `false`. -/
lemma detect_replicate_step (W k : ℕ) (v : ℚ) (d : ZScoreAnomalyDetector)
    (hw : d.window_size = W) (hd : d.data_window = List.replicate k v)
    (hs : d.std_sq = 0) :
    (d.detect v).1.window_size = W ∧
    (d.detect v).1.data_window = List.replicate (min (k + 1) W) v ∧
    (d.detect v).1.std_sq = 0 ∧
    (d.detect v).2 = false := by
  have hwin : (d.detect v).1.data_window = List.replicate (min (k + 1) W) v := by
    rw [detect_fst_window, hw, hd, dequeAppend_replicate]
  have hpushwin : (d.push v).data_window = List.replicate (min (k + 1) W) v := by
    show dequeAppend d.window_size d.data_window v = _
    rw [hw, hd, dequeAppend_replicate]
  have hstd : ((d.push v).update_statistics).std_sq = 0 := by
    rw [update_statistics_std_sq, hpushwin]
    by_cases hc : 1 < (List.replicate (min (k + 1) W) v).length
    · rw [if_pos hc, npVar_replicate]
    · rw [if_neg hc]
      exact hs
  refine ⟨(detect_fst_window_size d v).trans hw, hwin, ?_, ?_⟩
  · rw [detect_fst]
    exact hstd
  · exact detect_snd_eq_false d v (le_of_eq hstd)

/-- Feeding any number of copies of `v` into a detector whose window is
already uniform in `v` with `std = 0` yields only `false` classifications and
leaves `std = 0`. -/
lemma runDetect_replicate (W : ℕ) (v : ℚ) :
    ∀ (n k : ℕ) (d : ZScoreAnomalyDetector),
      d.window_size = W → d.data_window = List.replicate k v → d.std_sq = 0 →
      (runDetect d (List.replicate n v)).2 = List.replicate n false ∧
      (runDetect d (List.replicate n v)).1.std_sq = 0
  | 0, k, d, hw, hd, hs => by
      simp [runDetect, hs]
  | n + 1, k, d, hw, hd, hs => by
      simp only [List.replicate_succ, runDetect]
      have step := detect_replicate_step W k v d hw hd hs
      have ih := runDetect_replicate W v n (min (k + 1) W) (d.detect v).1
        step.1 step.2.1 step.2.2.1
      exact ⟨by rw [step.2.2.2, ih.1], ih.2⟩

/-! ## Claim C3 -/

/-- Claim C3: a detector constructed with any valid window size and
threshold, fed any number of copies of the same value `v`, never returns
`true` and never divides by the standard deviation: `std` stays 0 throughout
(the `std == 0` branch returns `false` before any division). -/
theorem identical_values_never_flag (W : ℕ) (t v : ℚ) (n : ℕ) (_hW : 0 < W) :
    (runDetect (detectorInit W t) (List.replicate n v)).2 = List.replicate n false ∧
    (runDetect (detectorInit W t) (List.replicate n v)).1.std_sq = 0 :=
  runDetect_replicate W v n 0 (detectorInit W t) rfl rfl rfl

/-- Witness for C3 at `W = 3`, `t = 3`, four copies of `v = 5`. -/
theorem identical_values_never_flag_witness :
    (runDetect (detectorInit 3 3) (List.replicate 4 5)).2 = List.replicate 4 false ∧
    (runDetect (detectorInit 3 3) (List.replicate 4 5)).1.std_sq = 0 :=
  identical_values_never_flag 3 3 5 4 (by norm_num)

/-! ## Claim C10 -/

/-- With window size 1, every `detect` step keeps the window at length ≤ 1,
never runs the statistics update, and returns `false`. -/
lemma runDetect_wsize_one :
    ∀ (xs : List ℚ) (d : ZScoreAnomalyDetector),
      d.window_size = 1 → d.data_window.length ≤ 1 → d.std_sq = 0 →
      (runDetect d xs).2 = List.replicate xs.length false ∧
      (runDetect d xs).1.mean = d.mean ∧
      (runDetect d xs).1.std_sq = 0
  | [], d, hw, hl, hs => by
      simp [runDetect, hs]
  | x :: xs, d, hw, hl, hs => by
      simp only [runDetect, List.length_cons, List.replicate_succ]
      have hpushlen : (d.push x).data_window.length = 1 := by
        show (dequeAppend d.window_size d.data_window x).length = 1
        rw [hw]
        unfold dequeAppend
        rw [List.length_drop]
        simp only [List.length_append, List.length_cons, List.length_nil]
        omega
      have hupd : (d.detect x).1 = d.push x := by
        rw [detect_fst]
        unfold ZScoreAnomalyDetector.update_statistics
        rw [if_neg (by rw [hpushlen]; omega)]
      have hmean : (d.detect x).1.mean = d.mean := by
        rw [hupd]
        rfl
      have hstd : (d.detect x).1.std_sq = 0 := by
        rw [hupd]
        exact hs
      have hws : (d.detect x).1.window_size = 1 := by
        rw [detect_fst_window_size, hw]
      have hsnd : (d.detect x).2 = false :=
        detect_snd_eq_false d x (by rw [← detect_fst, hstd])
      have wlen : (d.detect x).1.data_window.length ≤ 1 := by
        rw [hupd, hpushlen]
      have ih := runDetect_wsize_one xs (d.detect x).1 hws wlen hstd
      exact ⟨by rw [hsnd, ih.1], by rw [ih.2.1, hmean], ih.2.2⟩

/-- Claim C10: for a detector constructed with window size 1 and any
threshold, every call to `detect` returns `false` for every input: the
window never exceeds one element, the statistics update never executes, and
`mean` and `std` remain 0, so the `std == 0` branch always returns `false`. -/
theorem window_size_one_never_flags (t : ℚ) (xs : List ℚ) :
    (runDetect (detectorInit 1 t) xs).2 = List.replicate xs.length false ∧
    (runDetect (detectorInit 1 t) xs).1.mean = 0 ∧
    (runDetect (detectorInit 1 t) xs).1.std_sq = 0 := by
  have h := runDetect_wsize_one xs (detectorInit 1 t) rfl (by simp [detectorInit]) rfl
  exact ⟨h.1, h.2.1.trans rfl, h.2.2⟩

/-- Witness for C10 at `t = 3`, inputs `[5, 1000, -7]`. -/
theorem window_size_one_never_flags_witness :
    (runDetect (detectorInit 1 3) [5, 1000, -7]).2 = List.replicate 3 false ∧
    (runDetect (detectorInit 1 3) [5, 1000, -7]).1.mean = 0 ∧
    (runDetect (detectorInit 1 3) [5, 1000, -7]).1.std_sq = 0 :=
  window_size_one_never_flags 3 [5, 1000, -7]

/-! ## Claim C5 -/

lemma detect_snd_eq (d : ZScoreAnomalyDetector) (x : ℚ) :
    (d.detect x).2
      = if ((d.push x).update_statistics).std_sq ≤ 0 then false
        else decide (((d.push x).update_statistics).threshold < 0 ∨
          ((d.push x).update_statistics).threshold ^ 2
              * ((d.push x).update_statistics).std_sq
            < (x - ((d.push x).update_statistics).mean) ^ 2) := by
  unfold ZScoreAnomalyDetector.detect
  by_cases h : ((d.push x).update_statistics).std_sq ≤ 0 <;> simp [h]

lemma update_statistics_set_threshold (d : ZScoreAnomalyDetector) (t : ℚ) :
    ({ d with threshold := t } : ZScoreAnomalyDetector).update_statistics
      = { d.update_statistics with threshold := t } := by
  by_cases h : 1 < d.data_window.length <;>
    simp [ZScoreAnomalyDetector.update_statistics, h]

/-- Counterexample to claim C5 as stated: with the same window history
`[0, 0, 10]` (window size 3), the third sample is flagged at threshold 1 but
is NOT flagged when re-evaluated at the larger threshold 2, so increasing the
threshold does turn a previously-flagged point into a non-flagged one. -/
theorem threshold_mono_counterexample :
    (1 : ℚ) < 2 ∧
    (runDetect (detectorInit 3 1) [0, 0, 10]).2 = [false, false, true] ∧
    (runDetect (detectorInit 3 2) [0, 0, 10]).2 = [false, false, false] := by
  refine ⟨by norm_num, ?_, ?_⟩ <;>
    norm_num [runDetect, ZScoreAnomalyDetector.detect, ZScoreAnomalyDetector.push,
      ZScoreAnomalyDetector.update_statistics, detectorInit, dequeAppend, npMean, npVar]

/-- Amended claim C5: classification is antitone, not monotone, in the
threshold: for a fixed window history and value (hence fixed statistics), a
point flagged at the LARGER threshold `t2` is still flagged at any smaller
positive threshold `t1`; equivalently, increasing the threshold never turns a
non-flagged point into a flagged one.  (`0 ≤ d.std_sq` holds on every
reachable state, where `std_sq` is the square of the stored `std`.) -/
theorem threshold_antitone (d : ZScoreAnomalyDetector) (t1 t2 x : ℚ)
    (hstd : 0 ≤ d.std_sq) (h1 : 0 < t1) (h12 : t1 ≤ t2)
    (h : (({ d with threshold := t2 } : ZScoreAnomalyDetector).detect x).2 = true) :
    (({ d with threshold := t1 } : ZScoreAnomalyDetector).detect x).2 = true := by
  have key : ∀ t : ℚ,
      (({ d with threshold := t } : ZScoreAnomalyDetector).detect x).2
        = if ((d.push x).update_statistics).std_sq ≤ 0 then false
          else decide (t < 0 ∨ t ^ 2 * ((d.push x).update_statistics).std_sq
            < (x - ((d.push x).update_statistics).mean) ^ 2) := by
    intro t
    rw [detect_snd_eq]
    have e0 : ({ d with threshold := t } : ZScoreAnomalyDetector).push x
        = { d.push x with threshold := t } := rfl
    rw [e0, update_statistics_set_threshold]
  have hs0 : 0 ≤ ((d.push x).update_statistics).std_sq := by
    rw [update_statistics_std_sq]
    by_cases hc : 1 < (d.push x).data_window.length
    · rw [if_pos hc]
      exact npVar_nonneg _
    · rw [if_neg hc]
      exact hstd
  rw [key t2] at h
  rw [key t1]
  by_cases hc : ((d.push x).update_statistics).std_sq ≤ 0
  · rw [if_pos hc] at h
    exact absurd h (by simp)
  · rw [if_neg hc] at h ⊢
    rw [decide_eq_true_eq] at h ⊢
    push_neg at hc
    rcases h with ht2 | h2
    · exact absurd ht2 (not_lt.mpr (le_trans h1.le h12))
    · right
      have hle : t1 ^ 2 * ((d.push x).update_statistics).std_sq
          ≤ t2 ^ 2 * ((d.push x).update_statistics).std_sq := by
        have hsq : t1 ^ 2 ≤ t2 ^ 2 := by nlinarith
        exact mul_le_mul_of_nonneg_right hsq hs0
      linarith

/-- Witness for the amended C5: a state with window `[0, 0]`, fed the value
100; it is flagged at threshold `6/5`, hence also at the smaller threshold 1. -/
theorem threshold_antitone_witness :
    (({ (⟨3, 7, [0, 0], 0, 0⟩ : ZScoreAnomalyDetector) with
        threshold := 1 }).detect 100).2 = true := by
  refine threshold_antitone ⟨3, 7, [0, 0], 0, 0⟩ 1 (6/5) 100 le_rfl
    (by norm_num) (by norm_num) ?_
  norm_num [ZScoreAnomalyDetector.detect, ZScoreAnomalyDetector.push,
    ZScoreAnomalyDetector.update_statistics, dequeAppend, npMean, npVar]

/-! ## Claim C6 -/

/-- Claim C6: construction succeeds exactly when the window size is a
positive integer and the threshold is positive; otherwise it raises
`ValueError` (the `InvalidArgument` of the specification).  The
`isinstance(window_size, int)` half of the check is the `ℤ` type of the
argument; `detect` itself is a total function (it never raises). -/
theorem create_validation (w : ℤ) (t : ℚ) :
    (ZScoreAnomalyDetector.create w t).isOk = true ↔ 0 < w ∧ 0 < t := by
  unfold ZScoreAnomalyDetector.create
  by_cases h1 : w ≤ 0
  · rw [if_pos h1]
    constructor
    · intro h
      exact absurd h (by decide)
    · rintro ⟨hw', _⟩
      omega
  · rw [if_neg h1]
    by_cases h2 : t ≤ 0
    · rw [if_pos h2]
      constructor
      · intro h
        exact absurd h (by decide)
      · rintro ⟨_, ht'⟩
        linarith
    · rw [if_neg h2]
      constructor
      · intro _
        exact ⟨by omega, by linarith⟩
      · intro _
        rfl

/-- Witness for C6: `create(0, 3.0)` and `create(10, 0)` fail,
`create(10, 3.0)` succeeds. -/
theorem create_validation_witness :
    (ZScoreAnomalyDetector.create 0 3).isOk = false ∧
    (ZScoreAnomalyDetector.create 10 0).isOk = false ∧
    (ZScoreAnomalyDetector.create 10 3).isOk = true := by
  exact ⟨rfl, rfl, (create_validation 10 3).mpr ⟨by norm_num, by norm_num⟩⟩

/-! ## Claim C7 -/

/-- Claim C7: `data_stream_generator(count)` fails with `ValueError` (the
`InvalidArgument` of the specification) exactly when `count` is not a
positive integer, and the validation precedes the production of any value;
for positive `count` it yields exactly `count` values. -/
theorem generator_validation (sinf : ℚ → ℚ) (noise : ℕ → ℚ) (spike : ℕ → Option ℚ)
    (n : ℤ) :
    ((data_stream_generator sinf noise spike n).isOk = true ↔ 0 < n) ∧
    ∀ l, data_stream_generator sinf noise spike n = Except.ok l → (l.length : ℤ) = n := by
  unfold data_stream_generator
  by_cases h : n ≤ 0
  · rw [if_pos h]
    constructor
    · constructor
      · intro hh
        exact absurd hh (by decide)
      · intro hh
        omega
    · intro l hl
      exact Except.noConfusion hl
  · rw [if_neg h]
    constructor
    · constructor
      · intro _
        omega
      · intro _
        rfl
    · intro l hl
      injection hl with hh
      rw [← hh, List.length_map, List.length_range]
      exact Int.toNat_of_nonneg (by omega)

/-- Witness for C7: `generate(0)` and `generate(-5)` fail, `generate(3)`
yields exactly the 3 values `[0, 1/100, 1/50]` (zero noise, no spikes). -/
theorem generator_validation_witness :
    (data_stream_generator (fun _ => 0) (fun _ => 0) (fun _ => none) 0).isOk = false ∧
    (data_stream_generator (fun _ => 0) (fun _ => 0) (fun _ => none) (-5)).isOk = false ∧
    (data_stream_generator (fun _ => 0) (fun _ => 0) (fun _ => none) 3).isOk = true ∧
    (([0, 1/100, 1/50] : List ℚ).length : ℤ) = 3 := by
  refine ⟨rfl, rfl,
    (generator_validation (fun _ => 0) (fun _ => 0) (fun _ => none) 3).1.mpr (by norm_num),
    (generator_validation (fun _ => 0) (fun _ => 0) (fun _ => none) 3).2 [0, 1/100, 1/50] ?_⟩
  unfold data_stream_generator
  rw [if_neg (by norm_num), show Int.toNat 3 = 3 from rfl]
  norm_num [stream_value, round2, round_half_even,
    List.range_succ, Int.floor_zero, Int.floor_one, Int.floor_ofNat]

/-! ## Claim C8 -/

/-- Claim C8: with the Gaussian noise source fixed to 0 and no anomaly spike
injected, the `i`-th produced value (0-based, `i < count`) is exactly
`sin(i * 0.05) * 10 + i * 0.01` rounded to 2 decimal places, for any
injected sine function. -/
theorem generator_shape (sinf : ℚ → ℚ) (n : ℤ) (l : List ℚ) (i : ℕ)
    (hl : data_stream_generator sinf (fun _ => 0) (fun _ => none) n = Except.ok l)
    (hi : i < n.toNat) :
    l[i]? = some (round2 (sinf ((i : ℚ) * (5 / 100)) * 10 + (i : ℚ) * (1 / 100))) := by
  unfold data_stream_generator at hl
  by_cases h : n ≤ 0
  · rw [if_pos h] at hl
    exact Except.noConfusion hl
  · rw [if_neg h] at hl
    injection hl with hh
    rw [← hh, List.getElem?_map]
    have hr : (List.range n.toNat)[i]? = some i := by
      rw [List.getElem?_eq_getElem (by simpa using hi)]
      simp
    rw [hr]
    simp only [Option.map_some']
    congr 1
    simp [stream_value]

/-- Witness for C8 at index 1 of a 3-value stream with zero sine, zero
noise and no spikes: the value is `1 * 0.01 = 1/100`. -/
theorem generator_shape_witness :
    (([0, 1/100, 1/50] : List ℚ)[1]? = some (1/100)) := by
  have h := generator_shape (fun _ => 0) 3 [0, 1/100, 1/50] 1
    (by
      unfold data_stream_generator
      rw [if_neg (by norm_num), show Int.toNat 3 = 3 from rfl]
      norm_num [stream_value, round2, round_half_even,
        List.range_succ, Int.floor_zero, Int.floor_one, Int.floor_ofNat])
    (by norm_num)
  rw [h]
  norm_num [round2, round_half_even, Int.floor_zero, Int.floor_one]

/-! ## Claim C2 -/

/-- Counterexample to claim C2's numeric assertion: in the
`windowSize = 5, threshold = 3` scenario on `[10, 10, 10, 10, 10, 100]`, the
population standard deviation of the final window `[10, 10, 10, 10, 100]` is
exactly `sqrt 1296 = 36`, which is not within `0.1` of the claimed
`≈ 35.78` (and the z-score is exactly 2, not `≈ 2.01`). -/
theorem scenario_std_counterexample :
    (runDetect (detectorInit 5 3) [10, 10, 10, 10, 10, 100]).1.std_sq = 1296 ∧
    Real.sqrt ((1296 : ℚ) : ℝ) = 36 ∧
    ¬ |(36 : ℝ) - 35.78| < 1 / 10 := by
  refine ⟨?_, ?_, ?_⟩
  · norm_num [runDetect, ZScoreAnomalyDetector.detect, ZScoreAnomalyDetector.push,
      ZScoreAnomalyDetector.update_statistics, detectorInit, dequeAppend, npMean, npVar]
  · rw [show ((1296 : ℚ) : ℝ) = 36 ^ 2 by norm_num]
    exact Real.sqrt_sq (by norm_num)
  · rw [show (36 : ℝ) - 35.78 = 0.22 by norm_num, abs_of_nonneg (by norm_num)]
    norm_num

/-- Amended claim C2: for a detector with `windowSize = 5, threshold = 3`
fed `[10, 10, 10, 10, 10, 100]`, every one of the six calls returns `false`
(std is 0 for the first five); on the sixth call the new value 100 is part of
its own window, which becomes `[10, 10, 10, 10, 100]` with population mean
28, population standard deviation exactly 36, and z-score exactly 2 — below
the threshold 3, so the spike is not flagged. -/
theorem scenario_exact :
    (runDetect (detectorInit 5 3) [10, 10, 10, 10, 10, 100]).2
      = [false, false, false, false, false, false] ∧
    (runDetect (detectorInit 5 3) [10, 10, 10, 10, 10, 100]).1.data_window
      = [10, 10, 10, 10, 100] ∧
    (runDetect (detectorInit 5 3) [10, 10, 10, 10, 10, 100]).1.mean = 28 ∧
    Real.sqrt (((runDetect (detectorInit 5 3) [10, 10, 10, 10, 10, 100]).1.std_sq : ℚ) : ℝ)
      = 36 ∧
    ((100 : ℝ) - 28)
        / Real.sqrt (((runDetect (detectorInit 5 3) [10, 10, 10, 10, 10, 100]).1.std_sq : ℚ) : ℝ)
      = 2 := by
  have hstd : (runDetect (detectorInit 5 3) [10, 10, 10, 10, 10, 100]).1.std_sq = 1296 := by
    norm_num [runDetect, ZScoreAnomalyDetector.detect, ZScoreAnomalyDetector.push,
      ZScoreAnomalyDetector.update_statistics, detectorInit, dequeAppend, npMean, npVar]
  have hsqrt : Real.sqrt ((1296 : ℚ) : ℝ) = 36 := by
    rw [show ((1296 : ℚ) : ℝ) = 36 ^ 2 by norm_num]
    exact Real.sqrt_sq (by norm_num)
  refine ⟨?_, ?_, ?_, ?_, ?_⟩
  · norm_num [runDetect, ZScoreAnomalyDetector.detect, ZScoreAnomalyDetector.push,
      ZScoreAnomalyDetector.update_statistics, detectorInit, dequeAppend, npMean, npVar]
  · norm_num [runDetect, ZScoreAnomalyDetector.detect, ZScoreAnomalyDetector.push,
      ZScoreAnomalyDetector.update_statistics, detectorInit, dequeAppend, npMean, npVar]
  · norm_num [runDetect, ZScoreAnomalyDetector.detect, ZScoreAnomalyDetector.push,
      ZScoreAnomalyDetector.update_statistics, detectorInit, dequeAppend, npMean, npVar]
  · rw [hstd]
    exact hsqrt
  · rw [hstd, hsqrt]
    norm_num

/-! ## Claim C9 -/

/-- Counterexample to claim C9's log-line format: in a concrete run that
detects one anomaly (index 2, value 10), the loop emits the f-string
`--> Anomaly detected at X-axis 2 & Y-axis 10\n` — with a `--> ` marker in
front and a newline at the end — which differs from the bare
`Anomaly detected at X-axis 2 & Y-axis 10` form the claim asserts. -/
theorem log_format_counterexample :
    real_time_visualization (detectorInit 3 1) 0 [0, 0, 10] = [anomaly_log_line 2 10] ∧
    anomaly_log_line 2 10 = "--> Anomaly detected at X-axis 2 & Y-axis 10\n" ∧
    spec_log_line 2 10 = "Anomaly detected at X-axis 2 & Y-axis 10" ∧
    anomaly_log_line 2 10 ≠ spec_log_line 2 10 := by
  refine ⟨?_, rfl, rfl, by decide⟩
  norm_num [real_time_visualization, ZScoreAnomalyDetector.detect,
    ZScoreAnomalyDetector.push, ZScoreAnomalyDetector.update_statistics,
    detectorInit, dequeAppend, npMean, npVar]

/-- Amended claim C9: for each sample classified anomalous the loop emits
exactly one console line, in detection order, and none for non-anomalous
samples; the line's exact form is
`--> Anomaly detected at X-axis {index} & Y-axis {value}` followed by a
newline (the f-string itself ends in `\n`), with `index` the 0-based sample
position and `value` the sample value. -/
theorem log_lines_match_trace :
    ∀ (d : ZScoreAnomalyDetector) (i : ℕ) (ps : List ℚ),
      real_time_visualization d i ps
        = ((detect_trace d i ps).filter (fun e => e.2.2)).map
            (fun e => anomaly_log_line e.1 e.2.1) := by
  intro d i ps
  induction ps generalizing d i with
  | nil => rfl
  | cons p rest ih =>
    simp only [real_time_visualization, detect_trace, List.filter_cons]
    rcases Bool.eq_false_or_eq_true (d.detect p).2 with hb | hb
    · simp [hb, ih]
    · simp [hb, ih]

/-- Witness for the amended C9: a run that flags nothing emits no log
line. -/
theorem log_lines_match_trace_witness :
    real_time_visualization (detectorInit 3 2) 0 [0, 0, 10] = [] := by
  have h := log_lines_match_trace (detectorInit 3 2) 0 [0, 0, 10]
  rw [h]
  norm_num [detect_trace, ZScoreAnomalyDetector.detect, ZScoreAnomalyDetector.push,
    ZScoreAnomalyDetector.update_statistics, detectorInit, dequeAppend, npMean, npVar,
    List.filter_cons]

end AnomalyDetection
